import Mathlib

set_option maxHeartbeats 1000000
set_option linter.unusedVariables false

/-!
A shallow embedding of the dashboard front-end `static/script.js`.

Modelling conventions:
* JS numbers are embedded as rationals (`ℚ`).
* Untrusted JSON fields are `Option`-typed; `none` stands for an absent,
  `null` or `undefined` field (and, for array-typed fields that the code
  guards with `Array.isArray`, for any non-array value).
* A JS `TypeError` raised by a field access such as `x.forEach`, `x.map`,
  `x.toFixed` or `x.toExponential` on `undefined` is embedded as
  `Except.error` with a message string; template interpolation of
  `undefined` instead produces the string literal `"undefined"`, as in JS.
* `Date.now()` is embedded as an explicit `now : Nat` parameter that every
  renderer receives (the ambient clock at render time).
* DOM side effects are embedded as explicit state passing over `DomState`
  (the innerHTML slots and visibility flags the script writes) and
  `ChartCtx` (the shared canvas / `currentChart` handle).
-/

/-- Decimal digit character for a value below ten. -/
def digitChar (n : Nat) : Char := Char.ofNat (48 + n)

/-- Decimal digits of the proper fraction `r / b`, stopping at remainder
zero or when fuel runs out. -/
def fracDigits : Nat → Nat → Nat → List Char
  | 0, _, _ => []
  | fuel + 1, r, b =>
    if r = 0 then []
    else digitChar (r * 10 / b) :: fracDigits fuel (r * 10 % b) b

/-- JS default number-to-string conversion on the rational embedding of JS
numbers (used for template-literal interpolation such as `${result.omega}`). -/
def qToString (q : ℚ) : String :=
  let a := q.num.natAbs
  let b := q.den
  let sign := if q < 0 then "-" else ""
  let frac :=
    if a % b = 0 then "" else "." ++ String.mk (fracDigits 17 (a % b) b)
  sign ++ toString (a / b) ++ frac

/-- JS `Number.prototype.toFixed` on the rational embedding. -/
def toFixedQ (q : ℚ) (d : Nat) : String :=
  let n : Int := round (q * (10 : ℚ) ^ d)
  let sign := if n < 0 then "-" else ""
  let t := toString n.natAbs
  let t :=
    if t.length < d + 1 then String.mk (List.replicate (d + 1 - t.length) '0') ++ t
    else t
  if d = 0 then sign ++ t
  else sign ++ t.take (t.length - d) ++ "." ++ t.drop (t.length - d)

/-- JS `Number.prototype.toExponential` on the rational embedding. -/
def toExpQ (q : ℚ) (d : Nat) : String :=
  if q = 0 then toFixedQ 0 d ++ "e+0"
  else
    let e : Int := Int.log 10 |q|
    let m : ℚ := q / (10 : ℚ) ^ e
    toFixedQ m d ++ "e" ++ (if e < 0 then "-" else "+") ++ toString e.natAbs

/-- Template interpolation of a possibly-`undefined` JS string. -/
def interpS (o : Option String) : String := o.getD ("undefined")

/-- Template interpolation of a possibly-`undefined` JS number. -/
def interpQ (o : Option ℚ) : String :=
  match o with
  | some q => qToString q
  | none => "undefined"

/-- Template interpolation of a JS number that may be `NaN`
(`none` embeds `NaN`). -/
def interpNaN (o : Option ℚ) : String :=
  match o with
  | some q => qToString q
  | none => "NaN"

/-- JS truthiness of a possibly-absent string field (the empty string is
falsy; an absent field is falsy). -/
def jsTruthyStr (o : Option String) : Bool :=
  match o with
  | some m => decide (m ≠ "")
  | none => false

/-- Embedding of JS `Math.abs` (kernel-computable on the rationals). -/
def jsAbs (q : ℚ) : ℚ := if q < 0 then -q else q

/-- Embedding of binary JS `Math.max` (kernel-computable on the rationals). -/
def jsMax (a b : ℚ) : ℚ := if a ≤ b then b else a

/-- Prefix test on character lists (embedding of JS `String.startsWith`). -/
def subAt : List Char → List Char → Bool
  | [], _ => true
  | _ :: _, [] => false
  | a :: as, b :: bs => a == b && subAt as bs

/-- Substring test on character lists. -/
def containsSub (pat : List Char) : List Char → Bool
  | [] => subAt pat []
  | c :: t => subAt pat (c :: t) || containsSub pat t

/-- Substring test on strings. -/
def strContains (s pat : String) : Bool := containsSub pat.data s.data

/-- Embedding of JS `s.startsWith(pre)`. -/
def jsStartsWith (s pre : String) : Bool := subAt pre.data s.data

/- ========================= Chart manager ========================= -/

/-- The `data:` field of a Chart.js dataset: either `{x, y}` point pairs or
bare numbers. -/
inductive DataVals where
  | pts (l : List (Option ℚ × Option ℚ))
  | nums (l : List ℚ)
deriving DecidableEq

/-- One Chart.js dataset, as built by the three chart constructors in the
script. -/
structure Dataset where
  label : String
  dataVals : DataVals
  borderColor : Option String
  backgroundColor : String
  borderWidth : ℚ
  pointRadius : Option ℚ
  pointHoverRadius : Option ℚ
deriving DecidableEq

/-- The declarative chart description handed to `new Chart(ctx, …)`. -/
structure ChartSpec where
  chartType : String
  labels : Option (List String)
  datasets : List Dataset
  titleText : String
  xTitle : Option String
  yTitle : Option String
  yLogarithmic : Bool
  indexAxisY : Bool
deriving DecidableEq

/-- A constructed chart instance: an identity plus the spec it was built
from. -/
structure BuiltChart where
  id : Nat
  spec : ChartSpec
deriving DecidableEq

/-- The global chart state: the `currentChart` handle, the set of chart
instances currently attached to the shared canvas, the identity of the most
recently constructed chart, and a fresh-identity counter. -/
structure ChartCtx where
  current : Option BuiltChart
  attached : List Nat
  lastBuilt : Option Nat
  nextId : Nat
deriving DecidableEq

/-- Page-load chart state: `currentChart = null`, nothing on the canvas. -/
def initChart : ChartCtx := ⟨none, [], none, 0⟩

/-- Embeds `if (currentChart) { currentChart.destroy(); }`: detaches the
current chart from the canvas (the stale handle itself is not cleared,
exactly as in the script). -/
def chartDestroyCurrent (ctx : ChartCtx) : ChartCtx :=
  match ctx.current with
  | some c => { ctx with attached := ctx.attached.erase c.id }
  | none => ctx

/-- Embeds `currentChart = new Chart(ctx, spec)`: constructs a fresh chart
attached to the canvas and stores it in the shared handle. -/
def chartNew (spec : ChartSpec) (ctx : ChartCtx) : ChartCtx :=
  { current := some ⟨ctx.nextId, spec⟩
    attached := ctx.nextId :: ctx.attached
    lastBuilt := some ctx.nextId
    nextId := ctx.nextId + 1 }

/- ========================= Payload types ========================= -/

/-- A loosely-typed JSON matrix cell (`typeof val === 'number'` dispatch). -/
inductive JsVal where
  | num (q : ℚ)
  | str (s : String)
deriving DecidableEq

/-- One solution step of the case-1 (Gaussian elimination) response. -/
structure Step1 where
  step : Option ℚ
  description : Option String
  matrix : Option (List (List JsVal))
  L : Option (List (List ℚ))
  U : Option (List (List ℚ))
deriving DecidableEq

/-- Case-1 (Gaussian elimination) response payload. -/
structure Case1Data where
  error : Option String
  steps : Option (List Step1)
  solution : Option (List ℚ)
  method : Option String
  num_steps : Option ℚ
deriving DecidableEq

/-- One iteration sample of a SOR run. -/
structure IterSample where
  iteration : Option ℚ
  exact_error : Option ℚ
deriving DecidableEq

/-- One SOR run of the case-2 response. -/
structure RunResult where
  omega : Option ℚ
  convergence_iter : Option ℚ
  final_solution : Option (List ℚ)
  iterations : Option (List IterSample)
deriving DecidableEq

/-- Case-2 (SOR iteration) response payload. -/
structure Case2Data where
  error : Option String
  results : Option (List RunResult)
deriving DecidableEq

/-- One sample of the optimal-omega search response. -/
structure SearchPoint where
  omega : Option ℚ
  iterations : Option ℚ
deriving DecidableEq

/-- Response payload of `/api/case2/find_optimal`. -/
structure OptOmegaData where
  error : Option String
  optimal_omega : Option ℚ
  iterations : Option ℚ
  search_results : Option (List SearchPoint)
deriving DecidableEq

/-- One feature coefficient of the case-3 response. -/
structure CoefEntry where
  feature : String
  coefficient : ℚ
deriving DecidableEq

/-- Case-3 (regression / user profile) response payload. -/
structure Case3Data where
  error : Option String
  r_squared : Option ℚ
  rmse : Option ℚ
  num_samples : Option ℚ
  num_features : Option ℚ
  coefficients_sorted : Option (List CoefEntry)
deriving DecidableEq

/-- A case-4 verification number under the source's `!== undefined` guards:
these distinguish an absent/`undefined` field (guard fails, placeholder)
from a `null` field (guard passes, and the following `.toExponential` /
`.toFixed` raises) from a number. -/
inductive JsNum where
  | undef
  | null
  | num (q : ℚ)
deriving DecidableEq

/-- Whether a guarded verification field holds `null`. -/
def JsNum.isNull : JsNum → Bool
  | .null => true
  | _ => false

/-- The `verification` object of the case-4 response. -/
structure VerifData where
  is_balanced : Option Bool
  force_balance_error : JsNum
  moment_balance_error : JsNum
  total_reaction : JsNum
  total_external : JsNum
deriving DecidableEq

/-- Case-4 (bridge statics) response payload.  For the two array fields,
`none` embeds any non-array value (the script guards them with
`Array.isArray`). -/
structure Case4Data where
  error : Option String
  figure_path : Option String
  support_reactions : Option (List ℚ)
  support_positions : Option (List ℚ)
  verification : Option VerifData
deriving DecidableEq

/-- Case-5 (ray tracing) response payload. -/
structure Case5Data where
  error : Option String
  figure_path : Option String
  num_rays : Option ℚ
  total_intersections : Option ℚ
deriving DecidableEq

/-- Case-6 (conjugate gradient) response payload. -/
structure Case6Data where
  error : Option String
  figure_path : Option String
  matrix_size : Option ℚ
  iterations : Option ℚ
  final_residual : Option ℚ
  relative_error : Option ℚ
deriving DecidableEq

/- ========================= Chart builders ========================= -/

/-- The fixed four-colour palette declared inside `plotConvergenceCurves`. -/
def colorsList : List String := ["#3b82f6", "#10b981", "#f59e0b", "#ef4444"]

/-- One dataset of the convergence chart (`results.map((result, index) => …)`
callback body).  `colors[index]` out of range yields `undefined`
(`none`); `undefined + '33'` yields the string "undefined33". -/
def convergenceDataset (idx : Nat) (r : RunResult) : Except String Dataset :=
  match r.iterations with
  | none => .error ("TypeError: result.iterations is undefined")
  | some iters =>
    .ok
      { label := "ω = " ++ interpQ r.omega
        dataVals := .pts (iters.map (fun it => (it.iteration, it.exact_error)))
        borderColor := colorsList.get? idx
        backgroundColor := interpS (colorsList.get? idx) ++ "33"
        borderWidth := 2
        pointRadius := some 3
        pointHoverRadius := none }

/-- Index-carrying sequential evaluation of the convergence-dataset map
(JS `Array.prototype.map` evaluates left to right; the first `TypeError`
aborts the whole construction). -/
def convergenceDatasetsAux (idx : Nat) : List RunResult → Except String (List Dataset)
  | [] => .ok []
  | r :: rs =>
    match convergenceDataset idx r with
    | .error e => .error e
    | .ok d =>
      match convergenceDatasetsAux (idx + 1) rs with
      | .error e => .error e
      | .ok ds => .ok (d :: ds)

/-- The `datasets` array of the convergence chart. -/
def convergenceDatasets (results : List RunResult) : Except String (List Dataset) :=
  convergenceDatasetsAux 0 results

/-- The declarative spec of the SOR convergence chart. -/
def convergenceSpec (ds : List Dataset) : ChartSpec :=
  { chartType := "line"
    labels := none
    datasets := ds
    titleText := "SOR迭代法收敛曲线对比"
    xTitle := some ("迭代次数")
    yTitle := some ("误差 (对数尺度)")
    yLogarithmic := true
    indexAxisY := false }

/-- Embeds `plotConvergenceCurves(results)`: destroy the live chart, then
build the multi-series convergence chart.  A `TypeError` raised while
mapping the datasets (absent `iterations`) happens after the destroy and
before the construction, exactly as in the script. -/
def plotConvergenceCurves (results : List RunResult) (ctx : ChartCtx) :
    (Except String Unit) × ChartCtx :=
  let ctx1 := chartDestroyCurrent ctx
  match convergenceDatasets results with
  | .error e => (.error e, ctx1)
  | .ok ds => (.ok (), chartNew (convergenceSpec ds) ctx1)

/-- The single dataset of the optimal-omega search chart. -/
def searchDataset (l : List SearchPoint) : Dataset :=
  { label := "收敛步数"
    dataVals := .pts (l.map (fun r => (r.omega, r.iterations)))
    borderColor := some ("#667eea")
    backgroundColor := "#667eea33"
    borderWidth := 3
    pointRadius := some 4
    pointHoverRadius := some 6 }

/-- The declarative spec of the optimal-omega search chart. -/
def searchSpec (l : List SearchPoint) : ChartSpec :=
  { chartType := "line"
    labels := none
    datasets := [searchDataset l]
    titleText := "最优松弛因子搜索"
    xTitle := some ("松弛因子 ω")
    yTitle := some ("收敛步数")
    yLogarithmic := false
    indexAxisY := false }

/-- Embeds `plotOptimalOmegaSearch(searchResults)`: destroy the live chart,
then build the single-series search chart; `searchResults.map` on a
non-array raises after the destroy. -/
def plotOptimalOmegaSearch (rs : Option (List SearchPoint)) (ctx : ChartCtx) :
    (Except String Unit) × ChartCtx :=
  let ctx1 := chartDestroyCurrent ctx
  match rs with
  | none => (.error ("TypeError: searchResults.map is not a function"), ctx1)
  | some l => (.ok (), chartNew (searchSpec l) ctx1)

/-- The declarative spec of the feature-importance bar chart. -/
def featureSpec (cs : List CoefEntry) : ChartSpec :=
  { chartType := "bar"
    labels := some (cs.map (fun c => c.feature))
    datasets :=
      [{ label := "系数绝对值"
         dataVals := .nums (cs.map (fun c => jsAbs c.coefficient))
         borderColor := some ("rgb(102, 126, 234)")
         backgroundColor := "rgba(102, 126, 234, 0.7)"
         borderWidth := 2
         pointRadius := none
         pointHoverRadius := none }]
    titleText := "特征重要性分析"
    xTitle := none
    yTitle := none
    yLogarithmic := false
    indexAxisY := true }

/-- Embeds `plotFeatureImportance(coefficients)`: destroy the live chart,
then build the horizontal bar chart. -/
def plotFeatureImportance (cs : List CoefEntry) (ctx : ChartCtx) :
    (Except String Unit) × ChartCtx :=
  let ctx1 := chartDestroyCurrent ctx
  (.ok (), chartNew (featureSpec cs) ctx1)

/-- One chart-building call with its argument, for reasoning about
arbitrary call sequences against the shared canvas. -/
inductive PlotCall where
  | conv (results : List RunResult)
  | search (rs : Option (List SearchPoint))
  | feat (cs : List CoefEntry)

/-- Dispatch one chart-building call, keeping the resulting chart state
(also when the call raised mid-way). -/
def runPlot (c : PlotCall) (ctx : ChartCtx) : ChartCtx :=
  match c with
  | .conv results => (plotConvergenceCurves results ctx).2
  | .search rs => (plotOptimalOmegaSearch rs ctx).2
  | .feat cs => (plotFeatureImportance cs ctx).2

/-- Run a sequence of chart-building calls. -/
def foldPlots (calls : List PlotCall) (ctx : ChartCtx) : ChartCtx :=
  calls.foldl (fun a c => runPlot c a) ctx

/-- Chart-lifecycle invariant: at most one chart is attached to the canvas;
whatever is attached is exactly the chart the shared handle holds; the
shared handle refers to the most recently built chart; held identities are
below the fresh counter. -/
def ChartInv (ctx : ChartCtx) : Prop :=
  ctx.attached.length ≤ 1 ∧
  (∀ i ∈ ctx.attached, ∃ c, ctx.current = some c ∧ c.id = i) ∧
  ctx.lastBuilt = ctx.current.map (fun c => c.id) ∧
  (∀ c, ctx.current = some c → c.id < ctx.nextId)

/- ========================= DOM state ========================= -/

/-- The DOM slots the script writes: one visibility flag per result panel,
the innerHTML slots it assigns, and the shared chart state. -/
structure DomState where
  case1Visible : Bool
  case1Steps : Option String
  case1Solution : Option String
  case2Visible : Bool
  case2Summary : Option String
  case3Visible : Bool
  case3Metrics : Option String
  case3Coeffs : Option String
  case4Visible : Bool
  case4Image : Option String
  case4Reactions : Option String
  case4Verification : Option String
  case5Visible : Bool
  case5Image : Option String
  case5Stats : Option String
  case6Visible : Bool
  case6Image : Option String
  case6Stats : Option String
  chart : ChartCtx
deriving DecidableEq

/-- Page-load DOM state. -/
def initDom : DomState :=
  { case1Visible := false, case1Steps := none, case1Solution := none
    case2Visible := false, case2Summary := none
    case3Visible := false, case3Metrics := none, case3Coeffs := none
    case4Visible := false, case4Image := none, case4Reactions := none
    case4Verification := none
    case5Visible := false, case5Image := none, case5Stats := none
    case6Visible := false, case6Image := none, case6Stats := none
    chart := initChart }

/- ========================= Case 1 renderer ========================= -/

/-- Renders one matrix cell: `typeof val === 'number' ? val.toFixed(4) : val`. -/
def matrixCell (v : JsVal) : String :=
  match v with
  | .num q => toFixedQ q 4
  | .str s => s

/-- Renders a matrix of loosely-typed cells as an HTML table. -/
def matrixTable (rows : List (List JsVal)) : String :=
  "<div class=\"matrix-table\"><table>" ++
    String.join (rows.map (fun row =>
      "<tr>" ++ String.join (row.map (fun v => "<td>" ++ matrixCell v ++ "</td>")) ++ "</tr>")) ++
    "</table></div>"

/-- Renders a numeric matrix (the `L` / `U` factors) as an HTML table. -/
def numMatrixTable (rows : List (List ℚ)) : String :=
  "<div class=\"matrix-table\"><table>" ++
    String.join (rows.map (fun row =>
      "<tr>" ++ String.join (row.map (fun v => "<td>" ++ toFixedQ v 4 ++ "</td>")) ++ "</tr>")) ++
    "</table></div>"

/-- Renders one solution step of case 1.  `step.matrix` and `step.L` are
truthiness-guarded in the script, but `step.U.forEach` inside the `step.L`
branch is not: an absent `U` next to a present `L` raises. -/
def stepHTML (s : Step1) : Except String String :=
  let head :=
    "<div class=\"step-item\"><div class=\"step-header\"><div class=\"step-number\">" ++
      interpQ s.step ++ "</div><span>" ++ interpS s.description ++ "</span></div>"
  let matrixPart :=
    match s.matrix with
    | some m => matrixTable m
    | none => ""
  match s.L with
  | none => .ok (head ++ matrixPart ++ "</div>")
  | some lrows =>
    match s.U with
    | none => .error ("TypeError: step.U is undefined")
    | some urows =>
      .ok (head ++ matrixPart ++
        "<h4>矩阵 L:</h4>" ++ numMatrixTable lrows ++
        "<h4>矩阵 U:</h4>" ++ numMatrixTable urows ++ "</div>")

/-- Sequential evaluation of the per-step rendering (first raise aborts). -/
def stepsHTMLAux : List Step1 → Except String String
  | [] => .ok ("")
  | s :: rest =>
    match stepHTML s with
    | .error e => .error e
    | .ok h =>
      match stepsHTMLAux rest with
      | .error e => .error e
      | .ok t => .ok (h ++ t)

/-- The steps section of case 1; `data.steps.forEach` raises when `steps`
is absent. -/
def case1StepsHTML (d : Case1Data) : Except String String :=
  match d.steps with
  | none => .error ("TypeError: data.steps is undefined")
  | some steps =>
    match stepsHTMLAux steps with
    | .error e => .error e
    | .ok body => .ok ("<h3>求解步骤:</h3>" ++ body)

/-- The final-solution box of case 1. -/
def case1SolutionHTML (d : Case1Data) (sol : List ℚ) : String :=
  "<div class=\"solution-box\"><h3>🎯 最终解:</h3>" ++
    String.join (sol.enum.map (fun p =>
      "<div class=\"solution-item\">x<sub>" ++ toString (p.1 + 1) ++ "</sub> = " ++
        toFixedQ p.2 8 ++ "</div>")) ++
    "<p style=\"margin-top:15px;\">方法: <strong>" ++ interpS d.method ++
    "</strong> | 总步数: " ++ interpQ d.num_steps ++ "</p></div>"

/-- Embeds `displayCase1Result(data)`.  The panel is shown first; the steps
HTML is computed (and may raise) before it is assigned; the solution box is
only assigned when `data.solution` is present. -/
def displayCase1Result (d : Case1Data) (now : Nat) (dom : DomState) :
    (Except String Unit) × DomState :=
  let dom := { dom with case1Visible := true }
  match case1StepsHTML d with
  | .error e => (.error e, dom)
  | .ok sh =>
    let dom := { dom with case1Steps := some sh }
    match d.solution with
    | some sol => (.ok (), { dom with case1Solution := some (case1SolutionHTML d sol) })
    | none => (.ok (), dom)

/- ========================= Case 2 renderer ========================= -/

/-- One summary card of case 2; `result.final_solution.map` raises when the
field is absent. -/
def summaryCard (r : RunResult) : Except String String :=
  match r.final_solution with
  | none => .error ("TypeError: result.final_solution is undefined")
  | some fs =>
    .ok ("<div class=\"stat-card\"><div class=\"stat-label\">ω = " ++ interpQ r.omega ++
      "</div><div class=\"stat-value\">" ++ interpQ r.convergence_iter ++
      "</div><div class=\"stat-label\">迭代次数</div><div style=\"margin-top:10px; font-size:0.9em; color:#666;\">最终解: [" ++
      String.intercalate (", ") (fs.map (fun x => toFixedQ x 4)) ++ "]</div></div>")

/-- Sequential evaluation of the summary cards. -/
def summaryCardsAux : List RunResult → Except String String
  | [] => .ok ("")
  | r :: rest =>
    match summaryCard r with
    | .error e => .error e
    | .ok h =>
      match summaryCardsAux rest with
      | .error e => .error e
      | .ok t => .ok (h ++ t)

/-- Embeds `displayCase2Result(results)`: panel shown, `Array.isArray`
guard, summary cards, then the convergence chart. -/
def displayCase2Result (results : Option (List RunResult)) (now : Nat)
    (dom : DomState) : (Except String Unit) × DomState :=
  let dom := { dom with case2Visible := true }
  match results with
  | none =>
    (.ok (), { dom with case2Summary := some ("<p style=\"color:red;\">数据格式错误</p>") })
  | some rs =>
    match summaryCardsAux rs with
    | .error e => (.error e, dom)
    | .ok cards =>
      let h2 := "<div class=\"stats-grid\">" ++ cards ++ "</div>"
      let dom := { dom with case2Summary := some h2 }
      match plotConvergenceCurves rs dom.chart with
      | (.ok _, ctx) => (.ok (), { dom with chart := ctx })
      | (.error e, ctx) => (.error e, { dom with chart := ctx })

/- ========================= Case 3 renderer ========================= -/

/-- `Math.max(...list.map(c => Math.abs(c.coefficient)))` over the full
coefficient list (only ever evaluated with the current item in the list,
so the list is non-empty and the `0` base of the fold is absorbed). -/
def maxAbsCoeff (l : List CoefEntry) : ℚ :=
  (l.map (fun c => jsAbs c.coefficient)).foldr jsMax 0

/-- JS division on the rational embedding; `none` embeds the non-finite
result (`0 / 0 = NaN`) of a zero divisor. -/
def jsDiv (a b : ℚ) : Option ℚ :=
  if b = 0 then none else some (a / b)

/-- The bar width computed for one coefficient:
`(Math.abs(c) / Math.max(...)) * 100`.  `none` embeds `NaN`. -/
def case3BarWidth (l : List CoefEntry) (c : CoefEntry) : Option ℚ :=
  (jsDiv (jsAbs c.coefficient) (maxAbsCoeff l)).map (fun q => q * 100)

/-- The rendered coefficient rows of case 3, in rendering order: feature
name, bar width, and the coefficient value shown with six decimals. -/
def case3CoeffItems (l : List CoefEntry) : List (String × Option ℚ × ℚ) :=
  l.map (fun c => (c.feature, case3BarWidth l c, c.coefficient))

/-- The HTML of one coefficient row. -/
def coeffItemHTML (l : List CoefEntry) (c : CoefEntry) : String :=
  "<div class=\"coefficient-item\"><div><div class=\"coefficient-name\">" ++
    c.feature ++ "</div><div class=\"coefficient-bar\" style=\"width: " ++
    interpNaN (case3BarWidth l c) ++ "%\"></div></div><div class=\"coefficient-value\">" ++
    toFixedQ c.coefficient 6 ++ "</div></div>"

/-- The coefficient section of case 3. -/
def case3CoeffsHTML (l : List CoefEntry) : String :=
  "<h3>特征系数 (按重要性排序):</h3><div class=\"coefficient-list\">" ++
    String.join (l.map (fun c => coeffItemHTML l c)) ++ "</div>"

/-- The metrics grid of case 3; `r_squared.toFixed` and `rmse.toFixed`
raise (in template evaluation order) when the fields are absent. -/
def case3MetricsHTML (d : Case3Data) : Except String String :=
  match d.r_squared with
  | none => .error ("TypeError: data.r_squared is undefined")
  | some rsq =>
    match d.rmse with
    | none => .error ("TypeError: data.rmse is undefined")
    | some rmse =>
      .ok ("<div class=\"stats-grid\"><div class=\"stat-card\"><div class=\"stat-label\">R² (决定系数)</div><div class=\"stat-value\">" ++
        toFixedQ rsq 4 ++
        "</div></div><div class=\"stat-card\"><div class=\"stat-label\">RMSE</div><div class=\"stat-value\">" ++
        toFixedQ rmse 4 ++
        "</div></div><div class=\"stat-card\"><div class=\"stat-label\">样本数量</div><div class=\"stat-value\">" ++
        interpQ d.num_samples ++
        "</div></div><div class=\"stat-card\"><div class=\"stat-label\">特征数量</div><div class=\"stat-value\">" ++
        interpQ d.num_features ++ "</div></div></div>")

/-- Embeds `displayCase3Result(data)`: panel shown, metrics grid (may
raise before assignment), coefficient list (`coefficients_sorted.forEach`
raises when absent), then the feature-importance chart. -/
def displayCase3Result (d : Case3Data) (now : Nat) (dom : DomState) :
    (Except String Unit) × DomState :=
  let dom := { dom with case3Visible := true }
  match case3MetricsHTML d with
  | .error e => (.error e, dom)
  | .ok mh =>
    let dom := { dom with case3Metrics := some mh }
    match d.coefficients_sorted with
    | none => (.error ("TypeError: data.coefficients_sorted is undefined"), dom)
    | some l =>
      let dom := { dom with case3Coeffs := some (case3CoeffsHTML l) }
      match plotFeatureImportance l dom.chart with
      | (r, ctx) => (r, { dom with chart := ctx })

/- ========================= Case 4 renderer ========================= -/

/-- Path normalization of case 4:
`figure_path.startsWith('/') ? figure_path : '/' + figure_path`. -/
def normPath (p : String) : String :=
  if jsStartsWith p ("/") then p else "/" ++ p

/-- The inline SVG placeholder installed by the `onerror` fallback. -/
def fallbackSvg : String :=
  "data:image/svg+xml,%3Csvg xmlns=\x27http://www.w3.org/2000/svg\x27 width=\x27400\x27 height=\x27200\x27%3E%3Ctext x=\x2750%25\x27 y=\x2750%25\x27 text-anchor=\x27middle\x27 fill=\x27red\x27%3E图片加载失败%3C/text%3E%3C/svg%3E"

/-- The image block of case 4 for a truthy `figure_path`: normalized path,
`?t=` cache-busting token from the current time, and the `onerror`
fallback. -/
def case4ImgBlock (p : String) (now : Nat) : String :=
  "<div class=\"image-display\"><img src=\"" ++ normPath p ++ "?t=" ++ toString now ++
    "\" alt=\"桥梁结构图\" onerror=\"this.onerror=null; this.src=\x27" ++ fallbackSvg ++
    "\x27;\" /><p style=\"text-align:center; color:#666; margin-top:10px;\">图片路径: " ++
    p ++ "</p></div>"

/-- The image section of case 4 (`if (data.figure_path)` truthiness). -/
def case4ImageHTML (fp : Option String) (now : Nat) : String :=
  match fp with
  | some p =>
    if p = "" then "<p style=\"color:red;\">图片生成失败</p>"
    else case4ImgBlock p now
  | none => "<p style=\"color:red;\">图片生成失败</p>"

/-- One reaction table row; `positions[i]` is truthiness-tested, so an
out-of-range or zero position renders as the `'0.00'` default. -/
def reactionRow (positions : List ℚ) (i : Nat) (r : ℚ) : String :=
  "<tr><td>支座 " ++ toString (i + 1) ++ "</td><td>" ++
    (match positions.get? i with
     | some p => if p = 0 then "0.00" else toFixedQ p 2
     | none => "0.00") ++
    "</td><td>" ++ toFixedQ r 4 ++ "</td></tr>"

/-- The reactions table of case 4: `Array.isArray` defaults for both
arrays, and an explicit no-data row for an empty reaction list. -/
def case4ReactionsHTML (d : Case4Data) : String :=
  let reactions := d.support_reactions.getD []
  let positions := d.support_positions.getD []
  let rows :=
    match reactions with
    | [] => "<tr><td colspan=\"3\" style=\"text-align:center; color:red;\">无数据</td></tr>"
    | _ =>
      String.join (reactions.enum.map (fun p => reactionRow positions p.1 p.2))
  "<h3>支座反力:</h3><table class=\"data-table\"><thead><tr><th>支座</th><th>位置 (m)</th><th>反力 (kN)</th></tr></thead><tbody>" ++
    rows ++ "</tbody></table>"

/-- Default verification object (`data.verification || {}`): every field
access on it yields `undefined`. -/
def emptyVerif : VerifData := ⟨none, .undef, .undef, .undef, .undef⟩

/-- Whether any of the four guarded verification fields is `null` (the one
shape on which the case-4 renderer raises). -/
def verifHasNull (v : VerifData) : Bool :=
  v.force_balance_error.isNull || v.moment_balance_error.isNull ||
    v.total_reaction.isNull || v.total_external.isNull

/-- One residual line of the verification panel:
`f !== undefined ? f.toExponential(4) : 'N/A'`.  An `undefined` field takes
the placeholder; a `null` field passes the guard and `null.toExponential`
raises. -/
def verifExpHTML (name : String) (f : JsNum) : Except String String :=
  match f with
  | .num q => .ok (toExpQ q 4)
  | .undef => .ok ("N/A")
  | .null => .error ("TypeError: " ++ name ++ " is null")

/-- One optional sum row of the verification panel:
`f !== undefined ? `<p>…${f.toFixed(4)} kN</p>` : ''`.  An `undefined`
field omits the row; a `null` field passes the guard and `null.toFixed`
raises. -/
def verifRowHTML (label : String) (name : String) (f : JsNum) : Except String String :=
  match f with
  | .num q => .ok ("<p>" ++ label ++ ": " ++ toFixedQ q 4 ++ " kN</p>")
  | .undef => .ok ""
  | .null => .error ("TypeError: " ++ name ++ " is null")

/-- The verification panel of case 4, fields evaluated in template order:
absent fields are defensively defaulted (`'N/A'`, omitted rows,
`is_balanced || false`), but a `null` guarded field raises. -/
def case4VerificationHTML (d : Case4Data) : Except String String :=
  let v := d.verification.getD emptyVerif
  let isBalanced := v.is_balanced.getD false
  match verifExpHTML ("force_balance_error") v.force_balance_error with
  | .error e => .error e
  | .ok fh =>
    match verifExpHTML ("moment_balance_error") v.moment_balance_error with
    | .error e => .error e
    | .ok mh =>
      match verifRowHTML ("支座反力总和") ("total_reaction") v.total_reaction with
      | .error e => .error e
      | .ok trh =>
        match verifRowHTML ("外力总和") ("total_external") v.total_external with
        | .error e => .error e
        | .ok teh =>
          .ok ("<div class=\"" ++ (if isBalanced then "solution-box" else "problem-box") ++
            "\" style=\"margin-top:20px;\"><h3>平衡验证:</h3><p>力平衡误差: " ++ fh ++
            "</p><p>力矩平衡误差: " ++ mh ++ "</p>" ++ trh ++ teh ++
            "<p><strong>" ++
            (if isBalanced then "✅ 方程组求解正确，满足平衡条件" else "⚠️ 请检查数据") ++
            "</strong></p></div>")

/-- Embeds `displayCase4Result(data)`: the image and reactions slots are
assigned first; the verification template is evaluated afterwards, so a
raise there (a `null` guarded field) leaves them written and the
verification slot unchanged.  The cache-busting token uses the current
time. -/
def displayCase4Result (d : Case4Data) (now : Nat) (dom : DomState) :
    (Except String Unit) × DomState :=
  let dom := { dom with
    case4Visible := true
    case4Image := some (case4ImageHTML d.figure_path now)
    case4Reactions := some (case4ReactionsHTML d) }
  match case4VerificationHTML d with
  | .error e => (.error e, dom)
  | .ok vh => (.ok (), { dom with case4Verification := some vh })

/- ========================= Case 5 renderer ========================= -/

/-- The image block of case 5: the server path is prepended with `/`
unconditionally; no cache-busting token and no `onerror` fallback. -/
def case5ImageHTML (fp : Option String) : String :=
  "<div class=\"image-display\"><img src=\"/" ++ interpS fp ++ "\" alt=\"光线追踪\" /></div>"

/-- The stats grid of case 5 (interpolation only, never raises). -/
def case5StatsHTML (d : Case5Data) : String :=
  "<div class=\"stats-grid\"><div class=\"stat-card\"><div class=\"stat-label\">光线数量</div><div class=\"stat-value\">" ++
    interpQ d.num_rays ++
    "</div></div><div class=\"stat-card\"><div class=\"stat-label\">交点总数</div><div class=\"stat-value\">" ++
    interpQ d.total_intersections ++ "</div></div></div>"

/-- Embeds `displayCase5Result(data)`: never raises. -/
def displayCase5Result (d : Case5Data) (now : Nat) (dom : DomState) :
    (Except String Unit) × DomState :=
  (.ok (),
    { dom with
      case5Visible := true
      case5Image := some (case5ImageHTML d.figure_path)
      case5Stats := some (case5StatsHTML d) })

/- ========================= Case 6 renderer ========================= -/

/-- The image block of case 6: same unconditional `/` prefix as case 5,
no cache-busting token, no fallback. -/
def case6ImageHTML (fp : Option String) : String :=
  "<div class=\"image-display\"><img src=\"/" ++ interpS fp ++ "\" alt=\"共轭梯度法\" /></div>"

/-- The stats grid of case 6; `final_residual.toExponential` and
`relative_error.toExponential` raise (in template order) when absent. -/
def case6StatsHTML (d : Case6Data) : Except String String :=
  match d.final_residual with
  | none => .error ("TypeError: data.final_residual is undefined")
  | some fr =>
    match d.relative_error with
    | none => .error ("TypeError: data.relative_error is undefined")
    | some re =>
      .ok ("<div class=\"stats-grid\"><div class=\"stat-card\"><div class=\"stat-label\">矩阵规模</div><div class=\"stat-value\">" ++
        interpQ d.matrix_size ++ "×" ++ interpQ d.matrix_size ++
        "</div></div><div class=\"stat-card\"><div class=\"stat-label\">迭代次数</div><div class=\"stat-value\">" ++
        interpQ d.iterations ++
        "</div></div><div class=\"stat-card\"><div class=\"stat-label\">最终残差</div><div class=\"stat-value\">" ++
        toExpQ fr 2 ++
        "</div></div><div class=\"stat-card\"><div class=\"stat-label\">相对误差</div><div class=\"stat-value\">" ++
        toExpQ re 2 ++ "</div></div></div>")

/-- Embeds `displayCase6Result(data)`: the image block is assigned before
the stats template is evaluated, so a raise leaves the image set and the
stats slot unchanged. -/
def displayCase6Result (d : Case6Data) (now : Nat) (dom : DomState) :
    (Except String Unit) × DomState :=
  let dom := { dom with case6Visible := true, case6Image := some (case6ImageHTML d.figure_path) }
  match case6StatsHTML d with
  | .error e => (.error e, dom)
  | .ok sh => (.ok (), { dom with case6Stats := some sh })

/- ========================= App state and handlers ========================= -/

/-- Whole-page state: the loading flag (with its write trace), the alert
notifications issued so far, and the DOM. -/
structure AppState where
  loading : Bool
  loadTrace : List Bool
  alerts : List String
  dom : DomState
deriving DecidableEq

/-- Page-load application state. -/
def initApp : AppState := ⟨false, [], [], initDom⟩

/-- Embeds `showLoading(show)`; the write is also recorded in the trace. -/
def showLoading (b : Bool) (s : AppState) : AppState :=
  { s with loading := b, loadTrace := s.loadTrace ++ [b] }

/-- Embeds `alert(msg)`. -/
def pushAlert (m : String) (s : AppState) : AppState :=
  { s with alerts := s.alerts ++ [m] }

/-- The outcome of one awaited `fetch(...)` + `response.json()`: a parsed
payload, or a network-level / parse failure with its message. -/
inductive FetchOutcome (α : Type) where
  | ok (data : α)
  | fail (msg : String)

/-- Embeds `runCase1(method)` as a function of the fetch outcome: backend
error check, render (a render raise is caught by the handler), and the
`finally` clause clearing the loading flag. -/
def runCase1 (method : String) (outcome : FetchOutcome Case1Data) (now : Nat)
    (s : AppState) : AppState :=
  let s := showLoading true s
  let s :=
    match outcome with
    | .fail m => pushAlert ("请求失败: " ++ m) s
    | .ok d =>
      if jsTruthyStr d.error then pushAlert ("错误: " ++ interpS d.error) s
      else
        match displayCase1Result d now s.dom with
        | (.ok _, dom) => { s with dom := dom }
        | (.error e, dom) => pushAlert ("请求失败: " ++ e) { s with dom := dom }
  showLoading false s

/-- Embeds `runCase2()`. -/
def runCase2 (outcome : FetchOutcome Case2Data) (now : Nat) (s : AppState) : AppState :=
  let s := showLoading true s
  let s :=
    match outcome with
    | .fail m => pushAlert ("请求失败: " ++ m) s
    | .ok d =>
      if jsTruthyStr d.error then pushAlert ("错误: " ++ interpS d.error) s
      else
        match displayCase2Result d.results now s.dom with
        | (.ok _, dom) => { s with dom := dom }
        | (.error e, dom) => pushAlert ("请求失败: " ++ e) { s with dom := dom }
  showLoading false s

/-- Embeds `findOptimalOmega()`: backend error check, the result alert
(`optimal_omega.toFixed` raises when the field is absent, caught by the
handler), then the search chart. -/
def findOptimalOmega (outcome : FetchOutcome OptOmegaData) (now : Nat)
    (s : AppState) : AppState :=
  let s := showLoading true s
  let s :=
    match outcome with
    | .fail m => pushAlert ("请求失败: " ++ m) s
    | .ok d =>
      if jsTruthyStr d.error then pushAlert ("错误: " ++ interpS d.error) s
      else
        match d.optimal_omega with
        | none => pushAlert ("请求失败: TypeError: data.optimal_omega is undefined") s
        | some w =>
          let s := pushAlert ("最优松弛因子: ω = " ++ toFixedQ w 4 ++ "\n收敛步数: " ++
            interpQ d.iterations) s
          match plotOptimalOmegaSearch d.search_results s.dom.chart with
          | (.ok _, ctx) => { s with dom := { s.dom with chart := ctx } }
          | (.error e, ctx) =>
            pushAlert ("请求失败: " ++ e) { s with dom := { s.dom with chart := ctx } }
  showLoading false s

/-- Embeds `runCase3()`. -/
def runCase3 (outcome : FetchOutcome Case3Data) (now : Nat) (s : AppState) : AppState :=
  let s := showLoading true s
  let s :=
    match outcome with
    | .fail m => pushAlert ("请求失败: " ++ m) s
    | .ok d =>
      if jsTruthyStr d.error then pushAlert ("错误: " ++ interpS d.error) s
      else
        match displayCase3Result d now s.dom with
        | (.ok _, dom) => { s with dom := dom }
        | (.error e, dom) => pushAlert ("请求失败: " ++ e) { s with dom := dom }
  showLoading false s

/-- Embeds `runCase4Simple()`: note there is no `data.error` check — the
parsed payload goes straight to the renderer. -/
def runCase4Simple (outcome : FetchOutcome Case4Data) (now : Nat)
    (s : AppState) : AppState :=
  let s := showLoading true s
  let s :=
    match outcome with
    | .fail m => pushAlert ("请求失败: " ++ m) s
    | .ok d =>
      match displayCase4Result d now s.dom with
      | (.ok _, dom) => { s with dom := dom }
      | (.error e, dom) => pushAlert ("请求失败: " ++ e) { s with dom := dom }
  showLoading false s

/-- Embeds `runCase4(type)`: same body as `runCase4Simple` after the fetch
(no `data.error` check). -/
def runCase4 (typeTag : String) (outcome : FetchOutcome Case4Data) (now : Nat)
    (s : AppState) : AppState :=
  let s := showLoading true s
  let s :=
    match outcome with
    | .fail m => pushAlert ("请求失败: " ++ m) s
    | .ok d =>
      match displayCase4Result d now s.dom with
      | (.ok _, dom) => { s with dom := dom }
      | (.error e, dom) => pushAlert ("请求失败: " ++ e) { s with dom := dom }
  showLoading false s

/-- Embeds `runCase5()` (no `data.error` check). -/
def runCase5 (numRays : String) (outcome : FetchOutcome Case5Data) (now : Nat)
    (s : AppState) : AppState :=
  let s := showLoading true s
  let s :=
    match outcome with
    | .fail m => pushAlert ("请求失败: " ++ m) s
    | .ok d =>
      match displayCase5Result d now s.dom with
      | (.ok _, dom) => { s with dom := dom }
      | (.error e, dom) => pushAlert ("请求失败: " ++ e) { s with dom := dom }
  showLoading false s

/-- Embeds `runCase6()` (no `data.error` check). -/
def runCase6 (size : String) (outcome : FetchOutcome Case6Data) (now : Nat)
    (s : AppState) : AppState :=
  let s := showLoading true s
  let s :=
    match outcome with
    | .fail m => pushAlert ("请求失败: " ++ m) s
    | .ok d =>
      match displayCase6Result d now s.dom with
      | (.ok _, dom) => { s with dom := dom }
      | (.error e, dom) => pushAlert ("请求失败: " ++ e) { s with dom := dom }
  showLoading false s

/- ========================= Case/tab dispatcher ========================= -/

/-- Tab/panel DOM state: the case panels (id, has-active-class) in document
order, and the tab buttons' active flags in document order. -/
structure Dash where
  panels : List (String × Bool)
  tabs : List Bool
deriving DecidableEq

/-- Embeds `document.getElementById(caseId).classList.add('active')` over
the panel list: activates the first panel whose id matches, or `none` when
`getElementById` returns `null`. -/
def activatePanel (caseId : String) : List (String × Bool) → Option (List (String × Bool))
  | [] => none
  | p :: rest =>
    if p.1 = caseId then some ((caseId, true) :: rest)
    else (activatePanel caseId rest).map (fun r => p :: r)

/-- Embeds `showCase(caseId)` with the clicked tab (`event.target`) given
by its index.  All panels are hidden and all tabs deactivated first; then
the selected panel is shown — `getElementById(caseId)` being `null` makes
`.classList` raise a `TypeError` at that point (`Except.error` carries the
DOM state at the raise); finally the clicked tab is activated. -/
def showCase (caseId : String) (targetIdx : Nat) (s : Dash) : Except Dash Dash :=
  let ps := s.panels.map (fun p => (p.1, false))
  let ts := s.tabs.map (fun _ => false)
  match activatePanel caseId ps with
  | none => .error ⟨ps, ts⟩
  | some ps2 => .ok ⟨ps2, ts.set targetIdx true⟩

/- ========================= Observers and demo inputs ========================= -/

/-- The user-visible display output of the DOM state: every innerHTML slot
plus the spec of the chart currently held (chart identity is internal and
not part of the displayed bytes). -/
def displayOutput (dom : DomState) : List (Option String) × Option ChartSpec :=
  ([dom.case1Steps, dom.case1Solution, dom.case2Summary, dom.case3Metrics,
    dom.case3Coeffs, dom.case4Image, dom.case4Reactions, dom.case4Verification,
    dom.case5Image, dom.case5Stats, dom.case6Image, dom.case6Stats],
   dom.chart.current.map (fun c => c.spec))

/-- "Sorted by descending absolute value" for a list of rendered
coefficients. -/
@[reducible]
def descendingByMagnitude (l : List ℚ) : Prop :=
  l.Chain' (fun a b => jsAbs b ≤ jsAbs a)

instance (l : List ℚ) : Decidable (descendingByMagnitude l) :=
  inferInstanceAs (Decidable (l.Chain' (fun a b => jsAbs b ≤ jsAbs a)))

/-- The point count of a dataset. -/
def datasetPointCount (d : Dataset) : Nat :=
  match d.dataVals with
  | .pts l => l.length
  | .nums l => l.length

/-- The spec's worked example: a regression response whose
`coefficients_sorted` field holds `[0.5, -2.0, 1.0]` in that order. -/
def demoCoeffs : List CoefEntry :=
  [⟨"f1", (1 : ℚ) / 2⟩, ⟨"f2", -2⟩, ⟨"f3", 1⟩]

/-- A well-formed SOR run with a single iteration sample. -/
def demoRun : RunResult :=
  { omega := some 1, convergence_iter := some 10, final_solution := some [1],
    iterations := some [⟨some 0, some 1⟩] }

/-- A five-run SOR response (one more run than the palette has colours). -/
def fiveRuns : List RunResult := List.replicate 5 demoRun

/-- A backend-declared error payload for case 4. -/
def case4ErrPayload : Case4Data :=
  { error := some ("singular matrix"), figure_path := none,
    support_reactions := none, support_positions := none, verification := none }

/-- A well-formed case-4 payload bearing an image path. -/
def case4ImgPayload : Case4Data :=
  { error := none, figure_path := some ("figures/bridge.png"),
    support_reactions := some [10], support_positions := some [0],
    verification := none }

/-- A case-1 payload with no error field and an absent `steps` field. -/
def case1NoSteps : Case1Data :=
  { error := none, steps := none, solution := none, method := none, num_steps := none }

/-- A well-formed case-5 payload bearing an image path. -/
def case5ImgPayload : Case5Data :=
  { error := none, figure_path := some ("figures/ray.png"),
    num_rays := some 100, total_intersections := some 250 }

/-- A case-4 payload whose `verification.force_balance_error` is `null`:
it passes the `!== undefined` guard and makes the renderer raise. -/
def case4NullVerif : Case4Data :=
  { error := none, figure_path := none, support_reactions := none,
    support_positions := none,
    verification := some ⟨none, .null, .undef, .undef, .undef⟩ }

/-- A bare error payload for case 6 (no stats fields). -/
def case6ErrPayload : Case6Data :=
  { error := some ("singular matrix"), figure_path := none, matrix_size := none,
    iterations := none, final_residual := none, relative_error := none }

/-- The destroy step empties the canvas and changes nothing else. -/
theorem chartDestroy_attached (ctx : ChartCtx) (h : ChartInv ctx) :
    (chartDestroyCurrent ctx).attached = [] ∧
    (chartDestroyCurrent ctx).current = ctx.current ∧
    (chartDestroyCurrent ctx).lastBuilt = ctx.lastBuilt ∧
    (chartDestroyCurrent ctx).nextId = ctx.nextId := by
  obtain ⟨hlen, hmem, hlast, hlt⟩ := h
  cases hc : ctx.current with
  | none =>
    refine ⟨?_, by simp [chartDestroyCurrent, hc], by simp [chartDestroyCurrent, hc],
      by simp [chartDestroyCurrent, hc]⟩
    simp only [chartDestroyCurrent, hc]
    cases hA : ctx.attached with
    | nil => simp [hA]
    | cons i t =>
      exfalso
      obtain ⟨c, hcc, _⟩ := hmem i (by simp [hA])
      simp [hc] at hcc
  | some c =>
    refine ⟨?_, by simp [chartDestroyCurrent, hc], by simp [chartDestroyCurrent, hc],
      by simp [chartDestroyCurrent, hc]⟩
    simp only [chartDestroyCurrent, hc]
    cases hA : ctx.attached with
    | nil => simp [hA]
    | cons i t =>
      have hi := hmem i (by simp [hA])
      obtain ⟨c2, hc2, hid⟩ := hi
      rw [hc] at hc2
      cases hc2
      have ht : t = [] := by
        cases t with
        | nil => rfl
        | cons j u => simp [hA] at hlen
      subst ht
      simp [hA, ← hid, List.erase_cons_head]

theorem chartInv_destroy (ctx : ChartCtx) (h : ChartInv ctx) :
    ChartInv (chartDestroyCurrent ctx) := by
  obtain ⟨hA, hcur, hlast, hnext⟩ := chartDestroy_attached ctx h
  obtain ⟨hlen, hmem, hl, hlt⟩ := h
  refine ⟨by simp [hA], by simp [hA], ?_, ?_⟩
  · rw [hlast, hcur, hl]
  · intro c hc
    rw [hcur] at hc
    rw [hnext]
    exact hlt c hc

theorem chartInv_new (spec : ChartSpec) (ctx : ChartCtx)
    (hA : ctx.attached = []) : ChartInv (chartNew spec ctx) := by
  unfold chartNew ChartInv
  refine ⟨by simp [hA], ?_, by simp, ?_⟩
  · intro i hi
    simp [hA] at hi
    exact ⟨⟨ctx.nextId, spec⟩, by simp [hi]⟩
  · intro c hc
    simp at hc
    simp [← hc]

theorem chartInv_runPlot (c : PlotCall) (ctx : ChartCtx) (h : ChartInv ctx) :
    ChartInv (runPlot c ctx) := by
  obtain ⟨hA, hcur, hlast, hnext⟩ := chartDestroy_attached ctx h
  have hd := chartInv_destroy ctx h
  cases c with
  | conv results =>
    simp only [runPlot, plotConvergenceCurves]
    cases hcd : convergenceDatasets results with
    | error e => simpa [hcd] using hd
    | ok ds => simpa [hcd] using chartInv_new _ _ hA
  | search rs =>
    simp only [runPlot, plotOptimalOmegaSearch]
    cases rs with
    | none => simpa using hd
    | some l => simpa using chartInv_new _ _ hA
  | feat cs =>
    simp only [runPlot, plotFeatureImportance]
    simpa using chartInv_new _ _ hA

theorem chartInv_foldPlots (calls : List PlotCall) (ctx : ChartCtx)
    (h : ChartInv ctx) : ChartInv (foldPlots calls ctx) := by
  induction calls generalizing ctx with
  | nil => exact h
  | cons c rest ih => exact ih _ (chartInv_runPlot c ctx h)

/-- Claim C2: across every sequence of chart-building calls, at most one
chart instance is attached to the canvas, whatever is attached is exactly
the chart the shared handle refers to, and the handle refers to the most
recently built chart. -/
theorem c2_single_chart_instance (calls : List PlotCall) :
    ChartInv (foldPlots calls initChart) := by
  refine chartInv_foldPlots calls initChart ?_
  refine ⟨by simp [initChart], ?_, by simp [initChart], ?_⟩
  · intro i hi
    simp [initChart] at hi
  · intro c hc
    simp [initChart] at hc

theorem countP_id_allFalse (l : List Bool) (h : ∀ b ∈ l, b = false) :
    l.countP (fun b => b) = 0 := by
  induction l with
  | nil => simp
  | cons b bs ih =>
    have hb := h b (by simp)
    subst hb
    simp only [List.countP_cons]
    simp [ih (fun x hx => h x (by simp [hx]))]

theorem countP_set_true (l : List Bool) (t : Nat) (h : ∀ b ∈ l, b = false)
    (ht : t < l.length) : (l.set t true).countP (fun b => b) = 1 := by
  induction l generalizing t with
  | nil => simp at ht
  | cons b bs ih =>
    have hb := h b (by simp)
    subst hb
    cases t with
    | zero =>
      simp only [List.set]
      simp [List.countP_cons, countP_id_allFalse bs (fun x hx => h x (by simp [hx]))]
    | succ t =>
      simp only [List.set]
      simp only [List.countP_cons]
      simp [ih t (fun x hx => h x (by simp [hx])) (by simpa using ht)]

theorem countP_snd_allFalse (l : List (String × Bool)) (h : ∀ p ∈ l, p.2 = false) :
    l.countP (fun p => p.2) = 0 := by
  induction l with
  | nil => simp
  | cons p ps ih =>
    have hb := h p (by simp)
    simp only [List.countP_cons, hb]
    simp [ih (fun x hx => h x (by simp [hx]))]

theorem activatePanel_none_iff (caseId : String) (l : List (String × Bool)) :
    activatePanel caseId l = none ↔ caseId ∉ l.map Prod.fst := by
  induction l with
  | nil => simp [activatePanel]
  | cons p ps ih =>
    by_cases hp : p.1 = caseId
    · simp [activatePanel, hp]
    · simp only [activatePanel, hp, if_false, List.map_cons, List.mem_cons]
      constructor
      · intro h hmem
        rcases hmem with hmem | hmem
        · exact hp hmem.symm
        · exact (ih.mp (by simpa using h)) hmem
      · intro h
        simp only [Option.map_eq_none']
        exact ih.mpr (fun hmem => h (Or.inr hmem))

theorem activatePanel_spec (caseId : String) (l : List (String × Bool))
    (r : List (String × Bool)) (hall : ∀ p ∈ l, p.2 = false)
    (h : activatePanel caseId l = some r) :
    r.countP (fun p => p.2) = 1 ∧ (∀ p ∈ r, p.2 = true → p.1 = caseId) := by
  induction l generalizing r with
  | nil => simp [activatePanel] at h
  | cons p ps ih =>
    by_cases hp : p.1 = caseId
    · simp only [activatePanel, hp, if_true] at h
      cases h
      constructor
      · simp only [List.countP_cons]
        have h0 := countP_snd_allFalse ps (fun x hx => hall x (by simp [hx]))
        simp [h0]
      · intro q hq ht
        rcases List.mem_cons.mp hq with hq | hq
        · simp [hq]
        · exact absurd ht (by simp [hall q (by simp [hq])])
    · simp only [activatePanel, hp, if_false, Option.map_eq_some'] at h
      obtain ⟨r2, hr2, hr⟩ := h
      obtain ⟨hc, hm⟩ := ih r2 (fun x hx => hall x (by simp [hx])) hr2
      subst hr
      constructor
      · have hpf := hall p (by simp)
        simp only [List.countP_cons, hpf]
        simp [hc]
      · intro q hq ht
        rcases List.mem_cons.mp hq with hq | hq
        · exact absurd ht (by simp [hq, hall p (by simp)])
        · exact hm q hq ht

/-- Claim C3: for an existing panel and a clicked tab control, `showCase`
returns normally with exactly one panel shown (the one for `caseId`) and
exactly one tab marked active, regardless of the prior state. -/
theorem c3_exactly_one_active (caseId : String) (t : Nat) (s : Dash)
    (hp : caseId ∈ s.panels.map Prod.fst) (ht : t < s.tabs.length) :
    ∃ s2, showCase caseId t s = .ok s2 ∧
      s2.panels.countP (fun p => p.2) = 1 ∧
      (∀ p ∈ s2.panels, p.2 = true → p.1 = caseId) ∧
      s2.tabs.countP (fun b => b) = 1 := by
  have hall : ∀ p ∈ s.panels.map (fun p => (p.1, false)), p.2 = false := by
    intro p hp2
    simp only [List.mem_map] at hp2
    obtain ⟨q, _, hq⟩ := hp2
    simp [← hq]
  have hmem : caseId ∈ (s.panels.map (fun p => (p.1, false))).map Prod.fst := by
    simpa [List.map_map, Function.comp] using hp
  cases hact : activatePanel caseId (s.panels.map (fun p => (p.1, false))) with
  | none => exact absurd hmem ((activatePanel_none_iff _ _).mp hact)
  | some r =>
    obtain ⟨hc, hm⟩ := activatePanel_spec _ _ r hall hact
    refine ⟨⟨r, (s.tabs.map (fun _ => false)).set t true⟩, ?_, hc, hm, ?_⟩
    · simp [showCase, hact]
    · refine countP_set_true _ t ?_ (by simpa using ht)
      intro b hb
      simp only [List.mem_map] at hb
      obtain ⟨q, _, hq⟩ := hb
      exact hq.symm

theorem c3_exactly_one_active_witness :
    ("case2" ∈ ([("case1", true), ("case2", true)] : List (String × Bool)).map Prod.fst) ∧
    (0 < ([true, true] : List Bool).length) ∧
    (∃ s2, showCase ("case2") 0 ⟨[("case1", true), ("case2", true)], [true, true]⟩ = .ok s2 ∧
      s2.panels.countP (fun p => p.2) = 1 ∧
      (∀ p ∈ s2.panels, p.2 = true → p.1 = "case2") ∧
      s2.tabs.countP (fun b => b) = 1) :=
  ⟨by decide, by decide,
    c3_exactly_one_active ("case2") 0 ⟨[("case1", true), ("case2", true)], [true, true]⟩
      (by decide) (by decide)⟩

/-- Claim C7 counterexample: with one visible panel and a `caseId` that
matches no panel, `showCase` does not return normally (it raises a
`TypeError`), and the previously visible panel has been hidden — the
operation is neither a no-op on panel visibility nor a normal return. -/
theorem c7_counterexample :
    showCase ("nope") 0 ⟨[("case1", true)], [true]⟩ =
      .error ⟨[("case1", false)], [false]⟩ ∧
    (showCase ("nope") 0 ⟨[("case1", true)], [true]⟩).isOk = false ∧
    (([("case1", true)] : List (String × Bool)).countP (fun p => p.2) = 1) :=
  ⟨rfl, rfl, by decide⟩

/-- Claim C7 (amended): when `caseId` matches no panel, `showCase` hides
every panel and deactivates every tab, then raises before activating
anything: the result is a `TypeError` carrying the all-hidden DOM state,
not a normal return. -/
theorem c7_missing_panel (caseId : String) (t : Nat) (s : Dash)
    (h : caseId ∉ s.panels.map Prod.fst) :
    showCase caseId t s =
      .error ⟨s.panels.map (fun p => (p.1, false)), s.tabs.map (fun _ => false)⟩ := by
  have hmem : caseId ∉ (s.panels.map (fun p => (p.1, false))).map Prod.fst := by
    simpa [List.map_map, Function.comp] using h
  have hact := (activatePanel_none_iff caseId (s.panels.map (fun p => (p.1, false)))).mpr hmem
  simp [showCase, hact]

theorem c7_missing_panel_witness :
    (("nope" : String) ∉ ([("case1", true)] : List (String × Bool)).map Prod.fst) ∧
    showCase ("nope") 1 ⟨[("case1", true)], [true, false]⟩ =
      .error ⟨[("case1", false)], [false, false]⟩ :=
  ⟨by decide, c7_missing_panel ("nope") 1 ⟨[("case1", true)], [true, false]⟩ (by decide)⟩

theorem runCase1_loading (m : String) (o : FetchOutcome Case1Data) (now : Nat)
    (s : AppState) : (runCase1 m o now s).loading = false ∧
    (runCase1 m o now s).loadTrace = s.loadTrace ++ [true, false] := by
  cases o with
  | fail msg => simp [runCase1, showLoading, pushAlert]
  | ok d =>
    by_cases he : jsTruthyStr d.error
    · simp [runCase1, he, showLoading, pushAlert]
    · rcases hr : displayCase1Result d now s.dom with ⟨r, dom⟩
      cases r with
      | ok u => simp [runCase1, he, showLoading, pushAlert, hr]
      | error e => simp [runCase1, he, showLoading, pushAlert, hr]

theorem runCase2_loading (o : FetchOutcome Case2Data) (now : Nat) (s : AppState) :
    (runCase2 o now s).loading = false ∧
    (runCase2 o now s).loadTrace = s.loadTrace ++ [true, false] := by
  cases o with
  | fail msg => simp [runCase2, showLoading, pushAlert]
  | ok d =>
    by_cases he : jsTruthyStr d.error
    · simp [runCase2, he, showLoading, pushAlert]
    · rcases hr : displayCase2Result d.results now s.dom with ⟨r, dom⟩
      cases r with
      | ok u => simp [runCase2, he, showLoading, pushAlert, hr]
      | error e => simp [runCase2, he, showLoading, pushAlert, hr]

theorem findOptimalOmega_loading (o : FetchOutcome OptOmegaData) (now : Nat)
    (s : AppState) : (findOptimalOmega o now s).loading = false ∧
    (findOptimalOmega o now s).loadTrace = s.loadTrace ++ [true, false] := by
  cases o with
  | fail msg => simp [findOptimalOmega, showLoading, pushAlert]
  | ok d =>
    by_cases he : jsTruthyStr d.error
    · simp [findOptimalOmega, he, showLoading, pushAlert]
    · cases hw : d.optimal_omega with
      | none => simp [findOptimalOmega, he, hw, showLoading, pushAlert]
      | some w =>
        rcases hr : plotOptimalOmegaSearch d.search_results s.dom.chart with ⟨r, ctx⟩
        cases r with
        | ok u => simp [findOptimalOmega, he, hw, showLoading, pushAlert, hr]
        | error e => simp [findOptimalOmega, he, hw, showLoading, pushAlert, hr]

theorem runCase3_loading (o : FetchOutcome Case3Data) (now : Nat) (s : AppState) :
    (runCase3 o now s).loading = false ∧
    (runCase3 o now s).loadTrace = s.loadTrace ++ [true, false] := by
  cases o with
  | fail msg => simp [runCase3, showLoading, pushAlert]
  | ok d =>
    by_cases he : jsTruthyStr d.error
    · simp [runCase3, he, showLoading, pushAlert]
    · rcases hr : displayCase3Result d now s.dom with ⟨r, dom⟩
      cases r with
      | ok u => simp [runCase3, he, showLoading, pushAlert, hr]
      | error e => simp [runCase3, he, showLoading, pushAlert, hr]

theorem runCase4Simple_loading (o : FetchOutcome Case4Data) (now : Nat)
    (s : AppState) : (runCase4Simple o now s).loading = false ∧
    (runCase4Simple o now s).loadTrace = s.loadTrace ++ [true, false] := by
  cases o with
  | fail msg => simp [runCase4Simple, showLoading, pushAlert]
  | ok d =>
    rcases hr : displayCase4Result d now s.dom with ⟨r, dom⟩
    cases r with
    | ok u => simp [runCase4Simple, showLoading, pushAlert, hr]
    | error e => simp [runCase4Simple, showLoading, pushAlert, hr]

theorem runCase4_loading (ty : String) (o : FetchOutcome Case4Data) (now : Nat)
    (s : AppState) : (runCase4 ty o now s).loading = false ∧
    (runCase4 ty o now s).loadTrace = s.loadTrace ++ [true, false] := by
  cases o with
  | fail msg => simp [runCase4, showLoading, pushAlert]
  | ok d =>
    rcases hr : displayCase4Result d now s.dom with ⟨r, dom⟩
    cases r with
    | ok u => simp [runCase4, showLoading, pushAlert, hr]
    | error e => simp [runCase4, showLoading, pushAlert, hr]

theorem runCase5_loading (nr : String) (o : FetchOutcome Case5Data) (now : Nat)
    (s : AppState) : (runCase5 nr o now s).loading = false ∧
    (runCase5 nr o now s).loadTrace = s.loadTrace ++ [true, false] := by
  cases o with
  | fail msg => simp [runCase5, showLoading, pushAlert]
  | ok d =>
    rcases hr : displayCase5Result d now s.dom with ⟨r, dom⟩
    cases r with
    | ok u => simp [runCase5, showLoading, pushAlert, hr]
    | error e => simp [runCase5, showLoading, pushAlert, hr]

theorem runCase6_loading (sz : String) (o : FetchOutcome Case6Data) (now : Nat)
    (s : AppState) : (runCase6 sz o now s).loading = false ∧
    (runCase6 sz o now s).loadTrace = s.loadTrace ++ [true, false] := by
  cases o with
  | fail msg => simp [runCase6, showLoading, pushAlert]
  | ok d =>
    rcases hr : displayCase6Result d now s.dom with ⟨r, dom⟩
    cases r with
    | ok u => simp [runCase6, showLoading, pushAlert, hr]
    | error e => simp [runCase6, showLoading, pushAlert, hr]

/-- Claim C4: every request handler sets the loading flag before anything
else and clears it unconditionally before returning, on every outcome of
the network call (success, backend-declared error, network failure, or a
raise during rendering): the trace of loading writes is exactly
`[true, false]` and the flag is false on return. -/
theorem c4_loading_flag :
    (∀ m o now s, (runCase1 m o now s).loading = false ∧
      (runCase1 m o now s).loadTrace = s.loadTrace ++ [true, false]) ∧
    (∀ o now s, (runCase2 o now s).loading = false ∧
      (runCase2 o now s).loadTrace = s.loadTrace ++ [true, false]) ∧
    (∀ o now s, (findOptimalOmega o now s).loading = false ∧
      (findOptimalOmega o now s).loadTrace = s.loadTrace ++ [true, false]) ∧
    (∀ o now s, (runCase3 o now s).loading = false ∧
      (runCase3 o now s).loadTrace = s.loadTrace ++ [true, false]) ∧
    (∀ o now s, (runCase4Simple o now s).loading = false ∧
      (runCase4Simple o now s).loadTrace = s.loadTrace ++ [true, false]) ∧
    (∀ ty o now s, (runCase4 ty o now s).loading = false ∧
      (runCase4 ty o now s).loadTrace = s.loadTrace ++ [true, false]) ∧
    (∀ nr o now s, (runCase5 nr o now s).loading = false ∧
      (runCase5 nr o now s).loadTrace = s.loadTrace ++ [true, false]) ∧
    (∀ sz o now s, (runCase6 sz o now s).loading = false ∧
      (runCase6 sz o now s).loadTrace = s.loadTrace ++ [true, false]) :=
  ⟨runCase1_loading, runCase2_loading, findOptimalOmega_loading, runCase3_loading,
    runCase4Simple_loading, runCase4_loading, runCase5_loading, runCase6_loading⟩

/-- Claim C1 counterexample: for the case-4 handler, a response whose
`error` field is the truthy string "singular matrix" is rendered anyway —
no notification is issued and the case-4 panel state changes, so the
backend error is not surfaced and rendering is not aborted. -/
theorem c1_counterexample :
    (runCase4Simple (.ok case4ErrPayload) 0 initApp).alerts = [] ∧
    (runCase4Simple (.ok case4ErrPayload) 0 initApp).dom.case4Visible = true ∧
    (runCase4Simple (.ok case4ErrPayload) 0 initApp).dom.case4Image.isSome = true ∧
    jsTruthyStr case4ErrPayload.error = true := by
  refine ⟨rfl, rfl, rfl, by decide⟩

theorem verifExpHTML_ok (n : String) (f : JsNum) (h : f.isNull = false) :
    ∃ s, verifExpHTML n f = .ok s := by
  cases f with
  | undef => exact ⟨_, rfl⟩
  | null => simp [JsNum.isNull] at h
  | num q => exact ⟨_, rfl⟩

theorem verifRowHTML_ok (l n : String) (f : JsNum) (h : f.isNull = false) :
    ∃ s, verifRowHTML l n f = .ok s := by
  cases f with
  | undef => exact ⟨_, rfl⟩
  | null => simp [JsNum.isNull] at h
  | num q => exact ⟨_, rfl⟩

theorem case4VerificationHTML_ok (d : Case4Data)
    (h : verifHasNull (d.verification.getD emptyVerif) = false) :
    ∃ vh, case4VerificationHTML d = .ok vh := by
  simp only [verifHasNull, Bool.or_eq_false_iff] at h
  obtain ⟨⟨⟨h1, h2⟩, h3⟩, h4⟩ := h
  obtain ⟨s1, hs1⟩ := verifExpHTML_ok ("force_balance_error") _ h1
  obtain ⟨s2, hs2⟩ := verifExpHTML_ok ("moment_balance_error") _ h2
  obtain ⟨s3, hs3⟩ := verifRowHTML_ok ("支座反力总和") ("total_reaction") _ h3
  obtain ⟨s4, hs4⟩ := verifRowHTML_ok ("外力总和") ("total_external") _ h4
  cases hc : case4VerificationHTML d with
  | ok vh => exact ⟨vh, rfl⟩
  | error e =>
    exfalso
    revert hc
    simp [case4VerificationHTML, hs1, hs2, hs3, hs4]

/-- Claim C1 (amended): only the handlers of cases 1, 2 (both operations)
and 3 check the `error` field.  For those, a truthy error makes the
handler's entire effect a blocking notification carrying the error string,
bracketed by the loading toggles — no panel or chart state changes.  The
case-4/5/6 handlers perform no such check: the case-4 handler renders the
payload and issues no notification whenever no guarded verification field
is `null`; the case-5 handler always renders it with no notification; the
case-6 handler writes the image slot and then raises on the absent
`final_residual`, surfacing a generic transport-failure notification
(`请求失败: TypeError…`) rather than one carrying the backend error
string. -/
theorem c1_error_abort (e : String) (he : e ≠ "") (now : Nat) (s : AppState) :
    (∀ d : Case1Data, d.error = some e → ∀ m,
      runCase1 m (.ok d) now s =
        showLoading false (pushAlert ("错误: " ++ e) (showLoading true s))) ∧
    (∀ d : Case2Data, d.error = some e →
      runCase2 (.ok d) now s =
        showLoading false (pushAlert ("错误: " ++ e) (showLoading true s))) ∧
    (∀ d : OptOmegaData, d.error = some e →
      findOptimalOmega (.ok d) now s =
        showLoading false (pushAlert ("错误: " ++ e) (showLoading true s))) ∧
    (∀ d : Case3Data, d.error = some e →
      runCase3 (.ok d) now s =
        showLoading false (pushAlert ("错误: " ++ e) (showLoading true s))) ∧
    (∀ d : Case4Data, verifHasNull (d.verification.getD emptyVerif) = false →
      (runCase4Simple (.ok d) now s).alerts = s.alerts ∧
      (runCase4Simple (.ok d) now s).dom = (displayCase4Result d now s.dom).2) ∧
    (∀ nr : String, ∀ d : Case5Data,
      (runCase5 nr (.ok d) now s).alerts = s.alerts ∧
      (runCase5 nr (.ok d) now s).dom = (displayCase5Result d now s.dom).2) ∧
    (∀ sz : String, ∀ d : Case6Data, d.error = some e → d.final_residual = none →
      (runCase6 sz (.ok d) now s).alerts =
        s.alerts ++ ["请求失败: TypeError: data.final_residual is undefined"] ∧
      (runCase6 sz (.ok d) now s).dom.case6Visible = true ∧
      (runCase6 sz (.ok d) now s).dom.case6Image =
        some (case6ImageHTML d.figure_path)) := by
  refine ⟨?_, ?_, ?_, ?_, ?_, ?_, ?_⟩
  · intro d hd m
    simp [runCase1, jsTruthyStr, hd, he, interpS]
  · intro d hd
    simp [runCase2, jsTruthyStr, hd, he, interpS]
  · intro d hd
    simp [findOptimalOmega, jsTruthyStr, hd, he, interpS]
  · intro d hd
    simp [runCase3, jsTruthyStr, hd, he, interpS]
  · intro d hnn
    obtain ⟨vh, hvh⟩ := case4VerificationHTML_ok d hnn
    constructor
    · simp [runCase4Simple, displayCase4Result, hvh, showLoading, pushAlert]
    · simp [runCase4Simple, displayCase4Result, hvh, showLoading, pushAlert]
  · intro nr d
    constructor
    · simp [runCase5, displayCase5Result, showLoading, pushAlert]
    · simp [runCase5, displayCase5Result, showLoading, pushAlert]
  · intro sz d herr hfr
    refine ⟨?_, ?_, ?_⟩ <;>
      simp [runCase6, displayCase6Result, case6StatsHTML, hfr, showLoading, pushAlert]

theorem c1_error_abort_witness :
    (("singular matrix" : String) ≠ "") ∧
    runCase1 ("gauss") (.ok ⟨some ("singular matrix"), none, none, none, none⟩) 0 initApp =
      showLoading false (pushAlert ("错误: " ++ "singular matrix") (showLoading true initApp)) ∧
    (verifHasNull (case4ErrPayload.verification.getD emptyVerif) = false) ∧
    (runCase4Simple (.ok case4ErrPayload) 0 initApp).alerts = initApp.alerts ∧
    (runCase5 ("100") (.ok ⟨some ("singular matrix"), none, none, none⟩) 0 initApp).alerts =
      initApp.alerts ∧
    (case6ErrPayload.error = some ("singular matrix")) ∧
    (case6ErrPayload.final_residual = none) ∧
    (runCase6 ("8") (.ok case6ErrPayload) 0 initApp).alerts =
      initApp.alerts ++ ["请求失败: TypeError: data.final_residual is undefined"] :=
  ⟨by decide,
    (c1_error_abort ("singular matrix") (by decide) 0 initApp).1
      ⟨some ("singular matrix"), none, none, none, none⟩ rfl ("gauss"),
    rfl,
    ((c1_error_abort ("singular matrix") (by decide) 0 initApp).2.2.2.2.1
      case4ErrPayload rfl).1,
    ((c1_error_abort ("singular matrix") (by decide) 0 initApp).2.2.2.2.2.1
      ("100") ⟨some ("singular matrix"), none, none, none⟩).1,
    rfl,
    rfl,
    ((c1_error_abort ("singular matrix") (by decide) 0 initApp).2.2.2.2.2.2
      ("8") case6ErrPayload rfl rfl).1⟩

/-- Claim C5 counterexample: a case-1 response with no `error` field but an
absent `steps` field makes the renderer raise a `TypeError`
(`data.steps.forEach`) instead of degrading to a placeholder. -/
theorem c5_counterexample :
    case1NoSteps.error = none ∧
    (displayCase1Result case1NoSteps 0 initDom).1 =
      .error ("TypeError: data.steps is undefined") :=
  ⟨rfl, rfl⟩

/-- Claim C5 (amended): shape tolerance is partial.  The BridgeStatics
renderer degrades absent fields to placeholders (no-data row, `'N/A'`,
`0.00` positions) and completes whenever none of its guarded verification
fields is `null` — but a `null` guarded field passes the `!== undefined`
check and raises after the image and reactions slots are written.  The
RayTrace renderer completes on every payload shape, and the SORIterate
summary tolerates a non-array result list; the other renderers raise on
absent required fields (the raise is then caught by the handler's
notification path). -/
theorem c5_defensive_renderers :
    (∀ d now dom, verifHasNull (d.verification.getD emptyVerif) = false →
      (displayCase4Result d now dom).1 = .ok ()) ∧
    (∀ d now dom, (displayCase5Result d now dom).1 = .ok ()) ∧
    (∀ now dom, (displayCase2Result none now dom).1 = .ok () ∧
      (displayCase2Result none now dom).2.case2Summary =
        some ("<p style=\"color:red;\">数据格式错误</p>")) ∧
    (∀ v d now dom, d.verification = some v → v.force_balance_error = .null →
      (displayCase4Result d now dom).1 =
        .error ("TypeError: force_balance_error is null") ∧
      (displayCase4Result d now dom).2.case4Image =
        some (case4ImageHTML d.figure_path now) ∧
      (displayCase4Result d now dom).2.case4Reactions =
        some (case4ReactionsHTML d) ∧
      (displayCase4Result d now dom).2.case4Verification = dom.case4Verification) := by
  refine ⟨?_, fun d now dom => rfl, fun now dom => ⟨rfl, rfl⟩, ?_⟩
  · intro d now dom h
    obtain ⟨vh, hvh⟩ := case4VerificationHTML_ok d h
    simp [displayCase4Result, hvh]
  · intro v d now dom hv hf
    have he : case4VerificationHTML d =
        .error ("TypeError: force_balance_error is null") := by
      simp [case4VerificationHTML, hv, hf, verifExpHTML]
    simp [displayCase4Result, he]

theorem c5_defensive_renderers_witness :
    (verifHasNull (case4ErrPayload.verification.getD emptyVerif) = false) ∧
    (displayCase4Result case4ErrPayload 0 initDom).1 = .ok () ∧
    ((⟨none, .null, .undef, .undef, .undef⟩ : VerifData).force_balance_error = .null) ∧
    (displayCase4Result case4NullVerif 0 initDom).1 =
      .error ("TypeError: force_balance_error is null") :=
  ⟨rfl,
    (c5_defensive_renderers).1 case4ErrPayload 0 initDom rfl,
    rfl,
    ((c5_defensive_renderers).2.2.2 ⟨none, .null, .undef, .undef, .undef⟩
      case4NullVerif 0 initDom rfl rfl).1⟩

/-- Claim C6 counterexample: rendering the same case-4 payload at two
different clock readings produces different display bytes (the
cache-busting `?t=` token embeds the current time). -/
theorem c6_counterexample :
    (displayCase4Result case4ImgPayload 0 initDom).2.case4Image ≠
      (displayCase4Result case4ImgPayload 1 initDom).2.case4Image := by
  decide

theorem chartDestroyCurrent_current (ctx : ChartCtx) :
    (chartDestroyCurrent ctx).current = ctx.current := by
  cases hc : ctx.current with
  | none => simp [chartDestroyCurrent, hc]
  | some c => simp [chartDestroyCurrent, hc]

theorem displayCase1_idem (d : Case1Data) (now : Nat) (dom : DomState) :
    displayOutput (displayCase1Result d now (displayCase1Result d now dom).2).2 =
      displayOutput (displayCase1Result d now dom).2 := by
  cases hs : case1StepsHTML d with
  | error e => simp [displayCase1Result, hs]
  | ok sh =>
    cases hsol : d.solution with
    | none => simp [displayCase1Result, hs, hsol]
    | some sol => simp [displayCase1Result, hs, hsol]

theorem displayCase2_idem (r : Option (List RunResult)) (now : Nat) (dom : DomState) :
    displayOutput (displayCase2Result r now (displayCase2Result r now dom).2).2 =
      displayOutput (displayCase2Result r now dom).2 := by
  cases r with
  | none => simp [displayCase2Result]
  | some rs =>
    cases hc : summaryCardsAux rs with
    | error e => simp [displayCase2Result, hc]
    | ok cards =>
      cases hd : convergenceDatasets rs with
      | error e =>
        simp [displayCase2Result, hc, plotConvergenceCurves, hd, displayOutput,
          chartDestroyCurrent_current]
      | ok ds =>
        simp [displayCase2Result, hc, plotConvergenceCurves, hd, displayOutput,
          chartNew]

theorem displayCase3_idem (d : Case3Data) (now : Nat) (dom : DomState) :
    displayOutput (displayCase3Result d now (displayCase3Result d now dom).2).2 =
      displayOutput (displayCase3Result d now dom).2 := by
  cases hm : case3MetricsHTML d with
  | error e => simp [displayCase3Result, hm]
  | ok mh =>
    cases hcs : d.coefficients_sorted with
    | none => simp [displayCase3Result, hm, hcs]
    | some l =>
      simp [displayCase3Result, hm, hcs, plotFeatureImportance, displayOutput, chartNew]

theorem displayCase4_idem (d : Case4Data) (now : Nat) (dom : DomState) :
    displayOutput (displayCase4Result d now (displayCase4Result d now dom).2).2 =
      displayOutput (displayCase4Result d now dom).2 := by
  cases hv : case4VerificationHTML d with
  | error e => simp [displayCase4Result, hv]
  | ok vh => simp [displayCase4Result, hv]

theorem displayCase5_idem (d : Case5Data) (now : Nat) (dom : DomState) :
    displayOutput (displayCase5Result d now (displayCase5Result d now dom).2).2 =
      displayOutput (displayCase5Result d now dom).2 := by
  simp [displayCase5Result, displayOutput]

theorem displayCase6_idem (d : Case6Data) (now : Nat) (dom : DomState) :
    displayOutput (displayCase6Result d now (displayCase6Result d now dom).2).2 =
      displayOutput (displayCase6Result d now dom).2 := by
  cases hs : case6StatsHTML d with
  | error e => simp [displayCase6Result, hs]
  | ok sh => simp [displayCase6Result, hs]

/-- Claim C6 (amended): every renderer except BridgeStatics is independent
of the clock, so re-rendering the same payload yields byte-identical
output at any two times; the BridgeStatics renderer embeds the current
time in its cache-busting token (see the counterexample), so its output is
only reproducible at a fixed clock reading.  At a fixed clock reading,
re-rendering the same payload is idempotent on the display output (HTML
slots and chart spec) for all six renderers — there is no hidden
accumulating state. -/
theorem c6_idempotent_rendering :
    (∀ d t1 t2 dom, displayCase1Result d t1 dom = displayCase1Result d t2 dom) ∧
    (∀ r t1 t2 dom, displayCase2Result r t1 dom = displayCase2Result r t2 dom) ∧
    (∀ d t1 t2 dom, displayCase3Result d t1 dom = displayCase3Result d t2 dom) ∧
    (∀ d t1 t2 dom, displayCase5Result d t1 dom = displayCase5Result d t2 dom) ∧
    (∀ d t1 t2 dom, displayCase6Result d t1 dom = displayCase6Result d t2 dom) ∧
    (∀ d now dom,
      displayOutput (displayCase1Result d now (displayCase1Result d now dom).2).2 =
        displayOutput (displayCase1Result d now dom).2) ∧
    (∀ r now dom,
      displayOutput (displayCase2Result r now (displayCase2Result r now dom).2).2 =
        displayOutput (displayCase2Result r now dom).2) ∧
    (∀ d now dom,
      displayOutput (displayCase3Result d now (displayCase3Result d now dom).2).2 =
        displayOutput (displayCase3Result d now dom).2) ∧
    (∀ d now dom,
      displayOutput (displayCase4Result d now (displayCase4Result d now dom).2).2 =
        displayOutput (displayCase4Result d now dom).2) ∧
    (∀ d now dom,
      displayOutput (displayCase5Result d now (displayCase5Result d now dom).2).2 =
        displayOutput (displayCase5Result d now dom).2) ∧
    (∀ d now dom,
      displayOutput (displayCase6Result d now (displayCase6Result d now dom).2).2 =
        displayOutput (displayCase6Result d now dom).2) :=
  ⟨fun d t1 t2 dom => rfl, fun r t1 t2 dom => rfl, fun d t1 t2 dom => rfl,
    fun d t1 t2 dom => rfl, fun d t1 t2 dom => rfl,
    displayCase1_idem, displayCase2_idem, displayCase3_idem,
    displayCase4_idem, displayCase5_idem, displayCase6_idem⟩

theorem strData_append (a b : String) : (a ++ b).data = a.data ++ b.data := rfl

theorem subAt_of_append (p r : List Char) : subAt p (p ++ r) = true := by
  induction p with
  | nil => simp [subAt]
  | cons a as ih => simp [subAt, ih]

theorem containsSub_nil_pat (l : List Char) : containsSub [] l = true := by
  cases l with
  | nil => simp [containsSub, subAt]
  | cons c t => simp [containsSub, subAt]

theorem containsSub_head (p r : List Char) : containsSub p (p ++ r) = true := by
  cases p with
  | nil => simpa using containsSub_nil_pat r
  | cons a as =>
    simp only [containsSub, List.cons_append, Bool.or_eq_true]
    exact Or.inl (by simpa using subAt_of_append (a :: as) r)

theorem containsSub_right (p l r : List Char) (h : containsSub p r = true) :
    containsSub p (l ++ r) = true := by
  induction l with
  | nil => simpa using h
  | cons c t ih => simp [containsSub, ih]

theorem subAt_extend (p l r : List Char) (h : subAt p l = true) :
    subAt p (l ++ r) = true := by
  induction p generalizing l with
  | nil => simp [subAt]
  | cons a as ih =>
    cases l with
    | nil => simp [subAt] at h
    | cons b bs =>
      simp only [subAt, Bool.and_eq_true] at h
      simpa [subAt, h.1] using ih bs h.2

theorem containsSub_left (p l r : List Char) (h : containsSub p l = true) :
    containsSub p (l ++ r) = true := by
  induction l with
  | nil =>
    cases p with
    | nil => simpa using containsSub_nil_pat r
    | cons a as => simp [containsSub, subAt] at h
  | cons c t ih =>
    simp only [containsSub, Bool.or_eq_true] at h
    rcases h with h | h
    · simp only [containsSub, List.cons_append, Bool.or_eq_true]
      exact Or.inl (by simpa using subAt_extend _ _ r h)
    · simp [containsSub, ih h]

theorem strContains_append_right (a b pat : String) (h : strContains b pat = true) :
    strContains (a ++ b) pat = true := by
  unfold strContains at h ⊢
  rw [strData_append]
  exact containsSub_right _ _ _ h

theorem strContains_append_left (a b pat : String) (h : strContains a pat = true) :
    strContains (a ++ b) pat = true := by
  unfold strContains at h ⊢
  rw [strData_append]
  exact containsSub_left _ _ _ h

theorem strContains_self_append (pat b : String) : strContains (pat ++ b) pat = true := by
  unfold strContains
  rw [strData_append]
  exact containsSub_head _ _

theorem strAppend_assoc (a b c : String) : (a ++ b) ++ c = a ++ (b ++ c) := by
  apply String.ext
  simp [strData_append, List.append_assoc]

theorem normPath_startsWith (p : String) : jsStartsWith (normPath p) ("/") = true := by
  unfold normPath
  by_cases h : jsStartsWith p ("/") = true
  · simp [h]
  · simp only [h, Bool.false_eq_true, if_false]
    simp [jsStartsWith, strData_append, subAt]

theorem strContains_self (s : String) : strContains s s = true := by
  unfold strContains
  simpa using containsSub_head s.data []

/-- Claim C8 counterexample: the RayTrace renderer's image block (an
image-bearing response) carries no cache-busting token and no `onerror`
fallback — the case-4 treatment is not applied to cases 5 and 6. -/
theorem c8_counterexample :
    case5ImgPayload.figure_path.isSome = true ∧
    (displayCase5Result case5ImgPayload 0 initDom).2.case5Image.map
      (fun h => (strContains h ("?t="), strContains h ("onerror"))) =
      some (false, false) := ⟨rfl, rfl⟩

/-- Claim C8 (amended): only the BridgeStatics renderer normalizes the
server path to begin with a separator, appends the `?t=` cache-busting
token derived from the current time, and installs the inline `onerror`
placeholder.  The RayTrace and ConjugateGradient renderers instead prepend
a separator unconditionally and include neither token nor fallback (see
the counterexample). -/
theorem c8_image_handling (p : String) (hp : p ≠ "") (now : Nat) :
    jsStartsWith (normPath p) ("/") = true ∧
    case4ImageHTML (some p) now = case4ImgBlock p now ∧
    strContains (case4ImgBlock p now) ("?t=" ++ toString now) = true ∧
    strContains (case4ImgBlock p now) ("onerror") = true ∧
    (∀ fp, strContains (case5ImageHTML fp) ("src=\"/") = true) ∧
    (∀ fp, strContains (case6ImageHTML fp) ("src=\"/") = true) := by
  refine ⟨normPath_startsWith p, by simp [case4ImageHTML, hp], ?_, ?_, ?_, ?_⟩
  · unfold case4ImgBlock
    apply strContains_append_left
    apply strContains_append_left
    apply strContains_append_left
    apply strContains_append_left
    apply strContains_append_left
    rw [strAppend_assoc]
    apply strContains_append_right
    exact strContains_self _
  · unfold case4ImgBlock
    apply strContains_append_left
    apply strContains_append_left
    apply strContains_append_left
    apply strContains_append_left
    apply strContains_append_right
    rfl
  · intro fp
    unfold case5ImageHTML
    apply strContains_append_left
    rfl
  · intro fp
    unfold case6ImageHTML
    apply strContains_append_left
    rfl

theorem c8_image_handling_witness :
    (("figures/bridge.png" : String) ≠ "") ∧
    jsStartsWith (normPath ("figures/bridge.png")) ("/") = true ∧
    strContains (case4ImgBlock ("figures/bridge.png") 7) ("?t=" ++ toString 7) = true :=
  ⟨by decide,
    (c8_image_handling ("figures/bridge.png") (by decide) 7).1,
    (c8_image_handling ("figures/bridge.png") (by decide) 7).2.2.1⟩

/-- Claim C9 counterexample: the renderer does not sort — the spec's
example list `[0.5, -2.0, 1.0]` is rendered in payload order, which is not
descending by absolute value; and for the degenerate singleton `[0]` the
division is `0 / 0`, so the bar width is `NaN`, not a guarded value. -/
theorem c9_counterexample :
    ¬ descendingByMagnitude ((case3CoeffItems demoCoeffs).map (fun t => t.2.2)) ∧
    (case3CoeffItems [⟨"f", 0⟩]).map (fun t => t.2.1) = [none] := by
  constructor
  · simp only [case3CoeffItems, demoCoeffs, List.map_cons, List.map_nil,
      descendingByMagnitude, List.chain'_cons]
    intro h
    have h1 := h.1
    rw [show jsAbs (-2 : ℚ) = 2 by norm_num [jsAbs],
      show jsAbs ((1 : ℚ) / 2) = 1 / 2 by norm_num [jsAbs]] at h1
    norm_num at h1
  · norm_num [case3CoeffItems, case3BarWidth, maxAbsCoeff, jsAbs, jsMax, jsDiv]

/-- Claim C9 (amended): the renderer preserves the payload order of
`coefficients_sorted` (descending order holds only if the backend already
sorted); each bar width is `|c| / max(|c|) * 100` whenever the maximum is
non-zero — on the spec's example the widths are 25%, 100%, 50% — and a
singleton non-zero coefficient gets width 100; there is no guard for an
all-zero list, whose widths are `NaN`. -/
theorem c9_bar_widths :
    (∀ l : List CoefEntry,
      (case3CoeffItems l).map (fun t => t.2.2) = l.map (fun c => c.coefficient)) ∧
    (∀ l c, maxAbsCoeff l ≠ 0 →
      case3BarWidth l c = some (jsAbs c.coefficient / maxAbsCoeff l * 100)) ∧
    ((case3CoeffItems demoCoeffs).map (fun t => t.2.1) =
      [some 25, some 100, some 50]) ∧
    (∀ f q, q ≠ 0 → case3BarWidth [⟨f, q⟩] ⟨f, q⟩ = some 100) := by
  refine ⟨?_, ?_, ?_, ?_⟩
  · intro l
    simp [case3CoeffItems]
  · intro l c h
    simp [case3BarWidth, jsDiv, h]
  · norm_num [case3CoeffItems, demoCoeffs, case3BarWidth, maxAbsCoeff, jsAbs,
      jsMax, jsDiv]
  · intro f q hq
    have hja : jsAbs q = |q| := by
      unfold jsAbs
      rcases lt_or_le q 0 with h | h
      · simp [h, abs_of_neg h]
      · simp [not_lt.mpr h, abs_of_nonneg h]
    have hm : maxAbsCoeff [⟨f, q⟩] = |q| := by
      simp only [maxAbsCoeff, List.map_cons, List.map_nil, List.foldr_cons,
        List.foldr_nil, hja]
      unfold jsMax
      rcases le_or_lt (|q|) 0 with h | h
      · simp [le_antisymm h (abs_nonneg q)]
      · simp [not_le.mpr h]
    have hne : |q| ≠ 0 := abs_ne_zero.mpr hq
    simp [case3BarWidth, jsDiv, hm, hja, hne, div_self hne]

theorem c9_bar_widths_witness :
    (maxAbsCoeff [⟨"a", -2⟩, ⟨"b", 1⟩] ≠ 0) ∧
    case3BarWidth [⟨"a", -2⟩, ⟨"b", 1⟩] ⟨"a", -2⟩ =
      some (jsAbs (-2 : ℚ) / maxAbsCoeff [⟨"a", -2⟩, ⟨"b", 1⟩] * 100) ∧
    ((2 : ℚ) ≠ 0) ∧
    case3BarWidth [⟨"only", 2⟩] ⟨"only", 2⟩ = some 100 :=
  ⟨by decide,
    c9_bar_widths.2.1 [⟨"a", -2⟩, ⟨"b", 1⟩] ⟨"a", -2⟩ (by decide),
    by decide,
    c9_bar_widths.2.2.2 ("only") 2 (by decide)⟩

theorem convergenceDatasetsAux_ok (rs : List RunResult) :
    ∀ idx, (∀ r ∈ rs, r.iterations.isSome) →
    ∃ ds, convergenceDatasetsAux idx rs = .ok ds ∧ ds.length = rs.length ∧
      ∀ i r, rs.get? i = some r →
        ∃ d iters, ds.get? i = some d ∧ r.iterations = some iters ∧
          datasetPointCount d = iters.length ∧
          d.borderColor = colorsList.get? (idx + i) := by
  induction rs with
  | nil =>
    intro idx h
    exact ⟨[], rfl, rfl, fun i r hir => by simp at hir⟩
  | cons r rest ih =>
    intro idx h
    obtain ⟨iters, hit⟩ := Option.isSome_iff_exists.mp (h r (by simp))
    obtain ⟨ds, hds, hlen, hidx⟩ := ih (idx + 1) (fun x hx => h x (by simp [hx]))
    refine ⟨{ label := "ω = " ++ interpQ r.omega
              dataVals := .pts (iters.map (fun it => (it.iteration, it.exact_error)))
              borderColor := colorsList.get? idx
              backgroundColor := interpS (colorsList.get? idx) ++ "33"
              borderWidth := 2
              pointRadius := some 3
              pointHoverRadius := none } :: ds, ?_, by simp [hlen], ?_⟩
    · simp [convergenceDatasetsAux, convergenceDataset, hit, hds]
    · intro i q hiq
      cases i with
      | zero =>
        simp only [List.get?] at hiq
        cases hiq
        exact ⟨_, iters, rfl, hit, by simp [datasetPointCount], by simp⟩
      | succ i =>
        simp only [List.get?] at hiq
        obtain ⟨d, its, hd, hits, hcount, hcolor⟩ := hidx i q hiq
        refine ⟨d, its, by simpa using hd, hits, hcount, ?_⟩
        rw [hcolor]
        congr 1
        omega

/-- Claim C10 counterexample: with five runs the fifth series gets
`colors[4]`, which is `undefined` — the palette is indexed, not cycled, so
a fifth run does not receive the cycled colour `#3b82f6` (or any palette
colour). -/
theorem c10_counterexample :
    (match convergenceDatasets fiveRuns with
     | .ok ds => ds.map (fun d => d.borderColor)
     | .error _ => []) =
      [some ("#3b82f6"), some ("#10b981"), some ("#f59e0b"), some ("#ef4444"), none] ∧
    colorsList.get? (4 % colorsList.length) = some ("#3b82f6") :=
  ⟨rfl, rfl⟩

/-- Claim C10 (amended): for an N-run response whose runs all carry
iteration samples, the convergence chart has exactly N series, the i-th
series has as many points as the i-th run has samples, and the i-th series'
colour is `colors[i]` — the first four runs get distinct palette colours,
while runs beyond the fourth get no colour at all (the palette is indexed
by run position, not cycled). -/
theorem c10_series_counts (results : List RunResult)
    (h : ∀ r ∈ results, r.iterations.isSome) :
    ∃ ds, convergenceDatasets results = .ok ds ∧ ds.length = results.length ∧
      ∀ i r, results.get? i = some r →
        ∃ d iters, ds.get? i = some d ∧ r.iterations = some iters ∧
          datasetPointCount d = iters.length ∧
          d.borderColor = colorsList.get? i := by
  obtain ⟨ds, hds, hlen, hidx⟩ := convergenceDatasetsAux_ok results 0 h
  refine ⟨ds, hds, hlen, ?_⟩
  intro i r hir
  obtain ⟨d, iters, hd, hit, hcount, hcolor⟩ := hidx i r hir
  exact ⟨d, iters, hd, hit, hcount, by simpa using hcolor⟩

theorem c10_series_counts_witness :
    (∀ r ∈ fiveRuns, r.iterations.isSome) ∧
    ∃ ds, convergenceDatasets fiveRuns = .ok ds ∧ ds.length = fiveRuns.length ∧
      ∀ i r, fiveRuns.get? i = some r →
        ∃ d iters, ds.get? i = some d ∧ r.iterations = some iters ∧
          datasetPointCount d = iters.length ∧
          d.borderColor = colorsList.get? i :=
  ⟨by decide, c10_series_counts fiveRuns (by decide)⟩
